import Mathlib

/-!
Verification of the messaging-service conversation orchestration core.

This file gives a shallow embedding, in Lean, of the core components of the
messaging service (state machine, rate limiter, inbound webhook processing,
status-update processing, outbound dispatch, timeout sweep, channel adapters)
and proves properties of them.  Each definition is a direct translation of
the corresponding Python function; Django/Python idioms are modelled as
follows: dict lookups become association-list lookups, datetimes become Nat
timestamps, nullable fields become Option, the Django cache becomes an
explicit store with expiry timestamps, and a save with update_fields only
writes the listed fields (in particular an auto_now field is refreshed only
when it is listed, per Django semantics).
-/

/-- Association-list lookup modelling Python dict.get(key): returns the value
bound to the first matching key, or none. -/
def lookupOpt {α : Type} : List (String × α) → String → Option α
  | [], _ => none
  | p :: rest, key => if key = p.1 then some p.2 else lookupOpt rest key

/-- Association-list lookup modelling Python dict.get(key, default). -/
def lookupD {α : Type} (l : List (String × α)) (key : String) (d : α) : α :=
  (lookupOpt l key).getD d

/-- FLOW_DEFINITIONS from apps/core/services/state_machine.py lines 7-45:
context_type -> state -> event -> next state. -/
def FLOW_DEFINITIONS : List (String × List (String × List (String × String))) :=
  [ ("clarification",
      [ ("initial", [("on_send", "awaiting_response")])
      , ("awaiting_response", [("on_reply", "processing"), ("on_timeout", "timed_out")])
      , ("processing", [("on_complete", "completed"), ("on_followup", "awaiting_response")])
      , ("timed_out", [])
      , ("completed", []) ])
  , ("digest",
      [ ("initial", [("on_send", "awaiting_review")])
      , ("awaiting_review", [("on_reply", "processing"), ("on_timeout", "timed_out")])
      , ("processing", [("on_complete", "completed")])
      , ("timed_out", [])
      , ("completed", []) ])
  , ("reminder",
      [ ("initial", [("on_send", "notified")])
      , ("notified", [("on_reply", "acknowledged")])
      , ("acknowledged", []) ])
  , ("monthly_call_defer",
      [ ("initial", [("on_send", "notified")])
      , ("notified", []) ])
  , ("accountant_digest",
      [ ("initial", [("on_send", "awaiting_action")])
      , ("awaiting_action", [("on_reply", "processing"), ("on_timeout", "expired")])
      , ("processing", [("on_complete", "completed")])
      , ("expired", [])
      , ("completed", []) ])
  , ("weekly_batch",
      [ ("initial", [("on_send", "awaiting_responses")])
      , ("awaiting_responses", [("on_reply", "processing"), ("on_timeout", "timed_out")])
      , ("processing", [("on_complete", "completed"), ("on_followup", "awaiting_responses")])
      , ("timed_out", [])
      , ("completed", []) ])
  ]

/-- Conversation model (apps/core/models.py lines 61-93), restricted to the
fields the core reads or writes.  Timestamps are Nats. -/
structure Conversation where
  id : Nat
  contextType : String
  currentState : String
  status : String
  lastActivityAt : Nat
  updatedAt : Nat
  timeoutMinutes : Nat
  deriving Repr, DecidableEq

namespace StateMachine

/-- Status reclassification block of StateMachine.transition
(state_machine.py lines 70-76).  The Python if/elif chain assigns
conversation.status only when one branch matches; none is the fall-through
where status is left as it was. -/
def statusUpdate (newState : String) : Option String :=
  if newState = "timed_out" ∨ newState = "expired" then some "timed_out"
  else if newState = "completed" then some "completed"
  else if newState = "awaiting_response" ∨ newState = "awaiting_review" ∨
          newState = "awaiting_action" ∨ newState = "awaiting_responses" then
    some "waiting_reply"
  else none

/-- StateMachine.transition (state_machine.py lines 51-86).  Returns the
value returned by the Python method (new state or None) together with the
conversation as persisted.  The save call uses
update_fields current_state/status/updated_at, so updated_at (auto_now,
listed) is refreshed to the save time while last_activity_at (auto_now, not
listed) keeps its old value, per Django update_fields semantics. -/
def transition (c : Conversation) (event : String) (now : Nat) :
    Option String × Conversation :=
  let flow := lookupD FLOW_DEFINITIONS c.contextType []
  let currentTransitions := lookupD flow c.currentState []
  match lookupOpt currentTransitions event with
  | none => (none, c)
  | some newState =>
      (some newState,
        { c with
            currentState := newState
            status := (statusUpdate newState).getD c.status
            updatedAt := now })

/-- StateMachine.get_available_events (state_machine.py lines 88-91). -/
def get_available_events (c : Conversation) : List String :=
  (lookupD (lookupD FLOW_DEFINITIONS c.contextType []) c.currentState []).map Prod.fst

end StateMachine

/-- The flow-table lookup performed by StateMachine.transition, as a
standalone function of the triple. -/
def flowNext (ctx st ev : String) : Option String :=
  lookupOpt (lookupD (lookupD FLOW_DEFINITIONS ctx []) st []) ev

/-- All next states appearing as a target of some entry of FLOW_DEFINITIONS. -/
def allNextStates : List String :=
  (FLOW_DEFINITIONS.map (fun f =>
    (f.2.map (fun s => s.2.map Prod.snd)).flatten)).flatten

/-- The spec's name-pattern status classification (spec section 4.2): an
awaiting-named state yields waiting_reply, completed yields completed, a
timeout/expiry-named state yields timed_out, anything else leaves status
unchanged (none). -/
def specStatusUpdate (newState : String) : Option String :=
  if List.isPrefixOf "awaiting".data newState.data then some "waiting_reply"
  else if newState = "completed" then some "completed"
  else if newState = "timed_out" ∨ newState = "expired" then some "timed_out"
  else none

theorem lookupOpt_mem {α : Type} (l : List (String × α)) (k : String) (v : α)
    (h : lookupOpt l k = some v) : v ∈ l.map Prod.snd := by
  induction l with
  | nil => simp [lookupOpt] at h
  | cons p rest ih =>
    by_cases hk : k = p.1
    · simp only [lookupOpt, if_pos hk, Option.some.injEq] at h
      simp [← h]
    · simp only [lookupOpt, if_neg hk] at h
      simpa using Or.inr (ih h)

theorem flowNext_mem_allNextStates (ctx st ev ns : String)
    (h : flowNext ctx st ev = some ns) : ns ∈ allNextStates := by
  unfold flowNext at h
  simp only [lookupD] at h
  rcases hf : lookupOpt FLOW_DEFINITIONS ctx with _ | flow
  · rw [hf] at h
    simp [lookupOpt] at h
  · rw [hf] at h
    simp only [Option.getD_some] at h
    rcases hs : lookupOpt flow st with _ | trans
    · rw [hs] at h
      simp [lookupOpt] at h
    · rw [hs] at h
      simp only [Option.getD_some] at h
      have h1 := lookupOpt_mem _ _ _ hf
      have h2 := lookupOpt_mem _ _ _ hs
      have h3 := lookupOpt_mem _ _ _ h
      unfold allNextStates
      rw [List.mem_flatten]
      rcases List.mem_map.mp h1 with ⟨fentry, hfe, hfe2⟩
      refine ⟨(fentry.2.map (fun s => s.2.map Prod.snd)).flatten, ?_, ?_⟩
      · exact List.mem_map.mpr ⟨fentry, hfe, by rw [hfe2]⟩
      · rw [List.mem_flatten]
        rcases List.mem_map.mp h2 with ⟨sentry, hse, hse2⟩
        refine ⟨sentry.2.map Prod.snd, ?_, ?_⟩
        · exact List.mem_map.mpr ⟨sentry, by rw [hfe2]; exact hse, rfl⟩
        · rw [hse2]; exact h3

theorem statusUpdate_agrees_on_table :
    ∀ ns ∈ allNextStates, StateMachine.statusUpdate ns = specStatusUpdate ns := by
  decide

/-- C1: for every conversation and event such that the flow table has no
entry for (context_type, current_state, event), StateMachine.transition
returns the no-transition signal None and leaves the conversation (in
particular current_state and status) entirely unchanged. -/
theorem invalid_transition_is_noop (c : Conversation) (event : String) (now : Nat)
    (h : flowNext c.contextType c.currentState event = none) :
    StateMachine.transition c event now = (none, c) := by
  unfold StateMachine.transition
  unfold flowNext at h
  simp only [h]

theorem invalid_transition_is_noop_witness :
    flowNext "clarification" "initial" "on_reply" = none ∧
      StateMachine.transition
        ⟨1, "clarification", "initial", "active", 0, 0, 60⟩ "on_reply" 7 =
        (none, ⟨1, "clarification", "initial", "active", 0, 0, 60⟩) :=
  ⟨by decide,
   invalid_transition_is_noop ⟨1, "clarification", "initial", "active", 0, 0, 60⟩
     "on_reply" 7 (by decide)⟩

/-- C2: for every (context_type, state, event) triple present in the flow
table, StateMachine.transition moves current_state to the table's next
state and re-derives status from the new state's name: an awaiting-named
state yields waiting_reply, completed yields completed, a
timeout/expiry-named state yields timed_out, and any other new state leaves
status unchanged. -/
theorem valid_transition_state_and_status (c : Conversation) (event ns : String)
    (now : Nat) (h : flowNext c.contextType c.currentState event = some ns) :
    (StateMachine.transition c event now).1 = some ns ∧
      (StateMachine.transition c event now).2.currentState = ns ∧
      (StateMachine.transition c event now).2.status =
        (specStatusUpdate ns).getD c.status := by
  have hmem := flowNext_mem_allNextStates _ _ _ _ h
  have hag := statusUpdate_agrees_on_table ns hmem
  unfold StateMachine.transition
  unfold flowNext at h
  simp only [h]
  exact ⟨trivial, trivial, by rw [hag]⟩

theorem valid_transition_state_and_status_witness :
    flowNext "clarification" "initial" "on_send" = some "awaiting_response" ∧
      (StateMachine.transition
        ⟨1, "clarification", "initial", "active", 0, 0, 60⟩ "on_send" 7).1 =
        some "awaiting_response" ∧
      (StateMachine.transition
        ⟨1, "clarification", "initial", "active", 0, 0, 60⟩ "on_send" 7).2.currentState =
        "awaiting_response" ∧
      (StateMachine.transition
        ⟨1, "clarification", "initial", "active", 0, 0, 60⟩ "on_send" 7).2.status =
        (specStatusUpdate "awaiting_response").getD "active" :=
  ⟨by decide,
   valid_transition_state_and_status
     ⟨1, "clarification", "initial", "active", 0, 0, 60⟩ "on_send"
     "awaiting_response" 7 (by decide)⟩

/-- C3: the save in StateMachine.transition lists only
current_state/status/updated_at in update_fields, so last_activity_at
(auto_now but unlisted) is never refreshed by a transition: on every
transition the persisted conversation keeps its old last_activity_at even
though updated_at is set to the save time.  Shown in general and at the
concrete failing input (clarification flow, state initial, event on_send,
old last_activity_at 0, save time 5). -/
theorem transition_never_refreshes_last_activity :
    (∀ (c : Conversation) (event : String) (now : Nat),
        ((StateMachine.transition c event now).2).lastActivityAt = c.lastActivityAt) ∧
      (StateMachine.transition
          ⟨1, "clarification", "initial", "active", 0, 0, 60⟩ "on_send" 5).1 =
        some "awaiting_response" ∧
      (StateMachine.transition
          ⟨1, "clarification", "initial", "active", 0, 0, 60⟩ "on_send" 5).2.updatedAt = 5 ∧
      (StateMachine.transition
          ⟨1, "clarification", "initial", "active", 0, 0, 60⟩ "on_send" 5).2.lastActivityAt
        = 0 := by
  refine ⟨?_, by decide, by decide, by decide⟩
  intro c event now
  cases h : lookupOpt (lookupD (lookupD FLOW_DEFINITIONS c.contextType [])
      c.currentState []) event with
  | none => simp [StateMachine.transition, h]
  | some ns => simp [StateMachine.transition, h]

/-! ## Rate limiter (apps/core/services/rate_limiter.py) -/

/-- The Django cache, modelled as an explicit store: a list of
(key, value, expiry-time) entries where later writes shadow earlier ones.
Times are in seconds. -/
def Cache : Type := List (String × Nat × Nat)

/-- The empty cache. -/
def emptyCache : Cache := []

/-- cache.get(key, default) at time t: an entry is live while t is strictly
before its expiry time (Django returns the default once the TTL has
elapsed). -/
def cacheGet (c : Cache) (t : Nat) (key : String) (default : Nat) : Nat :=
  match lookupOpt c key with
  | some (v, e) => if t < e then v else default
  | none => default

/-- cache.set(key, value, timeout) at time t: stores the value with expiry
t + timeout, shadowing any earlier entry for the key. -/
def cacheSet (c : Cache) (t : Nat) (key : String) (v : Nat) (timeout : Nat) : Cache :=
  (key, v, t + timeout) :: c

namespace RateLimiter

/-- Hourly quota (rate_limiter.py line 13). -/
def MAX_MESSAGES_PER_HOUR : Nat := 10

/-- Daily quota (rate_limiter.py line 14). -/
def MAX_MESSAGES_PER_DAY : Nat := 30

/-- Hourly counter key for a contact (rate_limiter.py line 18). -/
def hourlyKey (contactId : String) : String := "msg_rate:" ++ contactId ++ ":hourly"

/-- Daily counter key for a contact (rate_limiter.py line 19). -/
def dailyKey (contactId : String) : String := "msg_rate:" ++ contactId ++ ":daily"

/-- RateLimiter.check (rate_limiter.py lines 16-29).  The reason strings are
the Python f-strings with the constants 10 and 30 interpolated. -/
def check (c : Cache) (t : Nat) (contactId : String) : Bool × String :=
  let hourly_count := cacheGet c t (hourlyKey contactId) 0
  if MAX_MESSAGES_PER_HOUR ≤ hourly_count then
    (false, "Hourly limit (10) exceeded")
  else
    let daily_count := cacheGet c t (dailyKey contactId) 0
    if MAX_MESSAGES_PER_DAY ≤ daily_count then
      (false, "Daily limit (30) exceeded")
    else
      (true, "")

/-- RateLimiter.record (rate_limiter.py lines 31-40): increments both
counters, setting the hourly one with a 3600-second TTL and the daily one
with an 86400-second TTL. -/
def record (c : Cache) (t : Nat) (contactId : String) : Cache :=
  let hourly_count := cacheGet c t (hourlyKey contactId) 0
  let c1 := cacheSet c t (hourlyKey contactId) (hourly_count + 1) 3600
  let daily_count := cacheGet c1 t (dailyKey contactId) 0
  cacheSet c1 t (dailyKey contactId) (daily_count + 1) 86400

end RateLimiter

/-- n successive RateLimiter.record calls for the same contact, all at time t. -/
def recordN : Nat → Cache → Nat → String → Cache
  | 0, c, _, _ => c
  | n + 1, c, t, contactId => recordN n (RateLimiter.record c t contactId) t contactId

theorem hourlyKey_ne_dailyKey (contactId : String) :
    RateLimiter.hourlyKey contactId ≠ RateLimiter.dailyKey contactId := by
  intro h
  have hl := congrArg String.length h
  simp only [RateLimiter.hourlyKey, RateLimiter.dailyKey, String.length_append] at hl
  have h7 : (":hourly" : String).length = 7 := rfl
  have h6 : (":daily" : String).length = 6 := rfl
  rw [h7, h6] at hl
  omega

theorem cacheGet_set_same (c : Cache) (t t2 : Nat) (k : String) (v timeout d : Nat) :
    cacheGet (cacheSet c t k v timeout) t2 k d = if t2 < t + timeout then v else d := by
  simp [cacheGet, cacheSet, lookupOpt]

theorem cacheGet_set_other (c : Cache) (t t2 : Nat) (k k2 : String)
    (v timeout d : Nat) (h : k2 ≠ k) :
    cacheGet (cacheSet c t k v timeout) t2 k2 d = cacheGet c t2 k2 d := by
  simp [cacheGet, cacheSet, lookupOpt, h]

theorem cacheGet_record_hourly (c : Cache) (t t2 : Nat) (contactId : String) :
    cacheGet (RateLimiter.record c t contactId) t2 (RateLimiter.hourlyKey contactId) 0 =
      if t2 < t + 3600 then cacheGet c t (RateLimiter.hourlyKey contactId) 0 + 1 else 0 := by
  unfold RateLimiter.record
  rw [cacheGet_set_other _ _ _ _ _ _ _ _ (hourlyKey_ne_dailyKey contactId),
    cacheGet_set_same]

theorem cacheGet_record_daily (c : Cache) (t t2 : Nat) (contactId : String) :
    cacheGet (RateLimiter.record c t contactId) t2 (RateLimiter.dailyKey contactId) 0 =
      if t2 < t + 86400 then cacheGet c t (RateLimiter.dailyKey contactId) 0 + 1 else 0 := by
  unfold RateLimiter.record
  rw [cacheGet_set_same,
    cacheGet_set_other _ _ _ _ _ _ _ _ (Ne.symm (hourlyKey_ne_dailyKey contactId))]

theorem recordN_succ (n : Nat) (c : Cache) (t : Nat) (contactId : String) :
    recordN (n + 1) c t contactId =
      RateLimiter.record (recordN n c t contactId) t contactId := by
  induction n generalizing c with
  | zero => rfl
  | succ n ih =>
    show recordN (n + 1) (RateLimiter.record c t contactId) t contactId = _
    rw [ih]
    rfl

theorem recordN_hourly_count (n : Nat) (c : Cache) (t : Nat) (contactId : String) :
    cacheGet (recordN n c t contactId) t (RateLimiter.hourlyKey contactId) 0 =
      cacheGet c t (RateLimiter.hourlyKey contactId) 0 + n := by
  induction n with
  | zero => rfl
  | succ n ih =>
    rw [recordN_succ, cacheGet_record_hourly, if_pos (by omega), ih]
    omega

theorem recordN_daily_count (n : Nat) (c : Cache) (t : Nat) (contactId : String) :
    cacheGet (recordN n c t contactId) t (RateLimiter.dailyKey contactId) 0 =
      cacheGet c t (RateLimiter.dailyKey contactId) 0 + n := by
  induction n with
  | zero => rfl
  | succ n ih =>
    rw [recordN_succ, cacheGet_record_daily, if_pos (by omega), ih]
    omega

/-- C7: RateLimiter.check denies exactly when the hourly counter is at or
over 10 or the daily counter is at or over 30, with the reason naming the
exceeded window (the hourly one takes priority); RateLimiter.record
increments both counters with their TTLs (1 hour, 24 hours); and for any
contact, after exactly 10 record calls at time 0 the next check (still
inside the hourly window) is denied with the hourly reason, while a check
after the hourly TTL has elapsed (time 3600) is allowed again. -/
theorem rate_limiter_quota_behaviour (c : Cache) (t : Nat) (contactId : String) :
    ((RateLimiter.check c t contactId).1 = false ↔
      (RateLimiter.MAX_MESSAGES_PER_HOUR ≤
          cacheGet c t (RateLimiter.hourlyKey contactId) 0 ∨
        RateLimiter.MAX_MESSAGES_PER_DAY ≤
          cacheGet c t (RateLimiter.dailyKey contactId) 0)) ∧
    (RateLimiter.MAX_MESSAGES_PER_HOUR ≤
        cacheGet c t (RateLimiter.hourlyKey contactId) 0 →
      (RateLimiter.check c t contactId).2 = "Hourly limit (10) exceeded") ∧
    (cacheGet c t (RateLimiter.hourlyKey contactId) 0 <
        RateLimiter.MAX_MESSAGES_PER_HOUR →
      RateLimiter.MAX_MESSAGES_PER_DAY ≤
        cacheGet c t (RateLimiter.dailyKey contactId) 0 →
      (RateLimiter.check c t contactId).2 = "Daily limit (30) exceeded") ∧
    (cacheGet (RateLimiter.record c t contactId) t (RateLimiter.hourlyKey contactId) 0 =
      cacheGet c t (RateLimiter.hourlyKey contactId) 0 + 1) ∧
    (cacheGet (RateLimiter.record c t contactId) t (RateLimiter.dailyKey contactId) 0 =
      cacheGet c t (RateLimiter.dailyKey contactId) 0 + 1) ∧
    (RateLimiter.check (recordN 10 emptyCache 0 contactId) 0 contactId =
      (false, "Hourly limit (10) exceeded")) ∧
    (RateLimiter.check (recordN 10 emptyCache 0 contactId) 3600 contactId =
      (true, "")) := by
  refine ⟨?_, ?_, ?_, ?_, ?_, ?_, ?_⟩
  · unfold RateLimiter.check
    by_cases h1 : RateLimiter.MAX_MESSAGES_PER_HOUR ≤
        cacheGet c t (RateLimiter.hourlyKey contactId) 0
    · simp [h1]
    · by_cases h2 : RateLimiter.MAX_MESSAGES_PER_DAY ≤
          cacheGet c t (RateLimiter.dailyKey contactId) 0
      · simp [h1, h2]
      · simp [h1, h2]
  · intro h1
    unfold RateLimiter.check
    simp [h1]
  · intro h1 h2
    unfold RateLimiter.check
    rw [if_neg (by omega), if_pos h2]
  · rw [cacheGet_record_hourly, if_pos (by omega)]
  · rw [cacheGet_record_daily, if_pos (by omega)]
  · unfold RateLimiter.check
    rw [recordN_hourly_count]
    simp [cacheGet, emptyCache, lookupOpt, RateLimiter.MAX_MESSAGES_PER_HOUR]
  · unfold RateLimiter.check
    rw [recordN_succ, cacheGet_record_hourly,
      if_neg (show ¬ (3600 < 0 + 3600) by omega)]
    rw [cacheGet_record_daily,
      if_pos (show 3600 < 0 + 86400 by omega), recordN_daily_count]
    simp [cacheGet, emptyCache, lookupOpt,
      RateLimiter.MAX_MESSAGES_PER_HOUR, RateLimiter.MAX_MESSAGES_PER_DAY]

theorem rate_limiter_quota_behaviour_witness :
    (10 ≤ cacheGet (recordN 10 emptyCache 0 "c1") 0 (RateLimiter.hourlyKey "c1") 0) ∧
      (RateLimiter.check (recordN 10 emptyCache 0 "c1") 0 "c1").2 =
        "Hourly limit (10) exceeded" :=
  ⟨by decide, (rate_limiter_quota_behaviour (recordN 10 emptyCache 0 "c1") 0 "c1").2.1
    (by decide)⟩

/-! ## Channel adapters: interactive-message button handling -/

/-- A button as supplied to send_interactive_message: id and title. -/
structure Button where
  id : String
  title : String
  deriving Repr, DecidableEq

/-- Python string slicing s[:n]: the first n characters. -/
def pySlice (s : String) (n : Nat) : String := String.mk (s.data.take n)

namespace WhatsAppAdapter

/-- Button-list construction of WhatsAppAdapter.send_interactive_message
(whatsapp_adapter.py lines 69-76): the first 3 buttons in order, each as an
(id, title) reply pair with the title cut to its first 20 characters.  The
rest of the payload and the HTTP call are provider plumbing and carry the
list through unchanged. -/
def send_interactive_buttons (buttons : List Button) : List (String × String) :=
  (buttons.take 3).map (fun btn => (btn.id, pySlice btn.title 20))

end WhatsAppAdapter

namespace TelegramAdapter

/-- Keyboard construction of TelegramAdapter.send_interactive_message
(telegram_adapter.py lines 38-40): one keyboard row per input button, in
order, each row holding the button title unmodified; no button-count or
title-length limit is applied. -/
def send_interactive_keyboard (buttons : List Button) : List (List String) :=
  buttons.map (fun btn => [btn.title])

end TelegramAdapter

/-- C9 counterexample: the Telegram adapter does not enforce the
at-most-3-buttons / title-at-most-20-characters contract.  With four
buttons, the first titled with 21 characters, send_interactive_message
builds a keyboard with all four rows and the 21-character title intact. -/
theorem telegram_interactive_unbounded :
    TelegramAdapter.send_interactive_keyboard
        [⟨"1", "ABCDEFGHIJKLMNOPQRSTU"⟩, ⟨"2", "b"⟩, ⟨"3", "c"⟩, ⟨"4", "d"⟩] =
      [["ABCDEFGHIJKLMNOPQRSTU"], ["b"], ["c"], ["d"]] ∧
      ¬ ((TelegramAdapter.send_interactive_keyboard
          [⟨"1", "ABCDEFGHIJKLMNOPQRSTU"⟩, ⟨"2", "b"⟩, ⟨"3", "c"⟩,
            ⟨"4", "d"⟩]).length ≤ 3) ∧
      ¬ (("ABCDEFGHIJKLMNOPQRSTU" : String).length ≤ 20) := by
  decide

/-- C9 as amended: the WhatsApp adapter truncates to at most 3 buttons with
titles cut to 20 characters, preserving the original order (the ids sent
are the ids of the first three input buttons, in order); the Telegram
adapter preserves order but applies no count or length limit, passing every
button title through unmodified. -/
theorem adapter_interactive_button_contract (buttons : List Button) :
    (WhatsAppAdapter.send_interactive_buttons buttons).length ≤ 3 ∧
      (∀ p ∈ WhatsAppAdapter.send_interactive_buttons buttons, p.2.length ≤ 20) ∧
      (WhatsAppAdapter.send_interactive_buttons buttons).map Prod.fst =
        (buttons.take 3).map Button.id ∧
      TelegramAdapter.send_interactive_keyboard buttons =
        buttons.map (fun btn => [btn.title]) := by
  refine ⟨?_, ?_, ?_, rfl⟩
  · rw [WhatsAppAdapter.send_interactive_buttons, List.length_map, List.length_take]
    omega
  · intro p hp
    rcases List.mem_map.mp hp with ⟨b, hb, hpe⟩
    rw [← hpe]
    show (pySlice b.title 20).length ≤ 20
    rw [pySlice, String.length_mk, List.length_take]
    omega
  · rw [WhatsAppAdapter.send_interactive_buttons, List.map_map]
    rfl

theorem adapter_interactive_button_contract_witness :
    (("1", pySlice "ABCDEFGHIJKLMNOPQRSTU" 20) ∈
        WhatsAppAdapter.send_interactive_buttons
          [⟨"1", "ABCDEFGHIJKLMNOPQRSTU"⟩, ⟨"2", "b"⟩]) ∧
      ("1", pySlice "ABCDEFGHIJKLMNOPQRSTU" 20).2.length ≤ 20 :=
  ⟨by decide,
   (adapter_interactive_button_contract
      [⟨"1", "ABCDEFGHIJKLMNOPQRSTU"⟩, ⟨"2", "b"⟩]).2.1
     ("1", pySlice "ABCDEFGHIJKLMNOPQRSTU" 20) (by decide)⟩

/-! ## Inbound webhook processing (apps/core/views.py) -/

/-- ContactProfile (models.py lines 8-24 plus the telegram_chat_id /
contact_type fields referenced by the API layer), restricted to the fields
the processing paths read or write.  An empty string models a missing
phone/chat id (Python falsiness). -/
structure Contact where
  id : String
  phone_e164 : String
  telegram_chat_id : String
  preferred_channel : String
  is_active : Bool
  deriving Repr, DecidableEq

/-- Message (models.py lines 96-127), restricted to the fields the core
reads or writes.  Timestamps are Option Nat (null = not set). -/
structure MessageRec where
  conversationId : Option Nat
  direction : String
  body : String
  channel_message_id : String
  status : String
  error_message : String
  sent_at : Option Nat
  delivered_at : Option Nat
  read_at : Option Nat
  deriving Repr, DecidableEq

/-- Python str.strip() for the ASCII whitespace characters. -/
def isPySpace (c : Char) : Bool :=
  c = ' ' ∨ c = '\t' ∨ c = '\n' ∨ c = '\r' ∨ c = '\x0b' ∨ c = '\x0c'

/-- Python str.strip(). -/
def pyStrip (s : String) : String :=
  String.mk (((s.data.dropWhile isPySpace).reverse.dropWhile isPySpace).reverse)

/-- Python str.upper() on ASCII content. -/
def pyUpper (s : String) : String := String.mk (s.data.map Char.toUpper)

/-- The WhatsApp opt-out keyword tuple (views.py line 166). -/
def optOutKeywords : List String := ["STOP", "UNSUBSCRIBE", "CANCEL"]

/-- The opt-out test of views.py line 166: body.strip().upper() compared
against the whole keyword tuple. -/
def isOptOut (body : String) : Bool :=
  decide (pyUpper (pyStrip body) ∈ optOutKeywords)

/-- One entry of a WhatsApp webhook messages array, with the fields read by
WhatsAppWebhookView._process_inbound_message: sender phone, provider
message id, type tag, and the type-dependent text payloads. -/
structure WaMessage where
  fromPhone : String
  id : String
  type : String
  textBody : String
  buttonText : String
  interactiveType : String
  buttonReplyTitle : String
  deriving Repr, DecidableEq

/-- Body extraction of _process_inbound_message (views.py lines 154-163). -/
def extractBody (m : WaMessage) : String :=
  if m.type = "text" then m.textBody
  else if m.type = "button" then m.buttonText
  else if m.type = "interactive" then
    (if m.interactiveType = "button_reply" then m.buttonReplyTitle else "")
  else ""

/-- Observable outcome of processing one inbound message: the contact as
left in the datastore (none when the sender was unknown and the event
dropped), the Message rows created, the state-machine events driven, the
Hub notification event types emitted, and the conversation as left in the
datastore. -/
structure InboundOutcome where
  contactAfter : Option Contact
  messages : List MessageRec
  events : List String
  notifications : List String
  conversationAfter : Option Conversation
  deriving Repr, DecidableEq

/-- WhatsAppWebhookView._process_inbound_message (views.py lines 137-208)
together with _handle_opt_out (lines 210-219).  The datastore lookups are
parameterized: resolvedContact is the ContactProfile found by the
normalized sender phone (none = unknown sender, event dropped), and
activeConversation is the most recently created conversation for that
contact with status active or waiting_reply (none if there is none).
The opt-out branch flips is_active and notifies Hub, creating no Message
and driving no transition; otherwise an inbound Message (status received)
is created, attached to the live conversation when one exists, on_reply is
driven through the state machine, and Hub receives client.replied. -/
def process_inbound_message (m : WaMessage) (resolvedContact : Option Contact)
    (activeConversation : Option Conversation) (now : Nat) : InboundOutcome :=
  match resolvedContact with
  | none => ⟨none, [], [], [], activeConversation⟩
  | some contact =>
    let body := extractBody m
    if isOptOut body then
      ⟨some { contact with is_active := false }, [], [], ["contact.opted_out"],
        activeConversation⟩
    else
      match activeConversation with
      | some conv =>
        ⟨some contact,
          [⟨some conv.id, "inbound", body, m.id, "received", "", none, none, none⟩],
          ["on_reply"],
          ["client.replied"],
          some (StateMachine.transition conv "on_reply" now).2⟩
      | none =>
        ⟨some contact,
          [⟨none, "inbound", body, m.id, "received", "", none, none, none⟩],
          [], [], none⟩

/-- C5: an inbound message whose trimmed body matches an opt-out keyword
case-insensitively (against the entire trimmed body) marks the sending
contact inactive, emits exactly one Hub contact.opted_out notification,
and short-circuits: no Message record is created and no state-machine
event is driven. -/
theorem opt_out_short_circuits (m : WaMessage) (contact : Contact)
    (activeConversation : Option Conversation) (now : Nat)
    (h : pyUpper (pyStrip (extractBody m)) ∈ optOutKeywords) :
    process_inbound_message m (some contact) activeConversation now =
      ⟨some { contact with is_active := false }, [], [], ["contact.opted_out"],
        activeConversation⟩ := by
  unfold process_inbound_message
  simp only [isOptOut, decide_eq_true h, if_true]

theorem opt_out_short_circuits_witness :
    (pyUpper (pyStrip (extractBody ⟨"15551234", "wamid.A", "text", "  stop ", "", "", ""⟩)) ∈
        optOutKeywords) ∧
      process_inbound_message ⟨"15551234", "wamid.A", "text", "  stop ", "", "", ""⟩
          (some ⟨"c1", "+15551234", "", "whatsapp", true⟩) none 3 =
        ⟨some ⟨"c1", "+15551234", "", "whatsapp", false⟩, [], [],
          ["contact.opted_out"], none⟩ :=
  ⟨by decide,
   opt_out_short_circuits ⟨"15551234", "wamid.A", "text", "  stop ", "", "", ""⟩
     ⟨"c1", "+15551234", "", "whatsapp", true⟩ none 3 (by decide)⟩

/-! ## Delivery-status webhook processing (views.py lines 95-135) -/

/-- One entry of a WhatsApp webhook statuses array, with the fields read by
_process_status_update: provider message id, provider status, and the
message text of the first errors entry (none when absent; the code falls
back to the text Unknown error). -/
structure WaStatusUpdate where
  id : String
  status : String
  errorsMessage : Option String
  deriving Repr, DecidableEq

/-- The WhatsApp-status to internal-status mapping (views.py lines 110-115). -/
def status_mapping : List (String × String) :=
  [("sent", "sent"), ("delivered", "delivered"), ("read", "read"), ("failed", "failed")]

/-- The field updates of _process_status_update once a mapped status exists
(views.py lines 119-127): status is always overwritten; delivered_at and
read_at are set to the current time only when not already set; a failed
status records the error text. -/
def applyStatusFields (message : MessageRec) (mapped : String)
    (err : Option String) (now : Nat) : MessageRec :=
  let m1 := { message with status := mapped }
  if mapped = "delivered" ∧ m1.delivered_at = none then
    { m1 with delivered_at := some now }
  else if mapped = "read" ∧ m1.read_at = none then
    { m1 with read_at := some now }
  else if mapped = "failed" then
    { m1 with error_message := err.getD "Unknown error" }
  else m1

/-- WhatsAppWebhookView._process_status_update (views.py lines 95-135).
The Message lookup by channel_message_id is parameterized as found (none =
unknown id, logged and dropped).  Returns the message as persisted together
with the Hub notification event types emitted. -/
def process_status_update (found : Option MessageRec) (su : WaStatusUpdate)
    (now : Nat) : Option MessageRec × List String :=
  if su.id = "" ∨ su.status = "" then (found, [])
  else
    match found with
    | none => (none, [])
    | some message =>
      match lookupOpt status_mapping su.status with
      | none => (some message, [])
      | some mapped =>
        (some (applyStatusFields message mapped su.errorsMessage now),
          ["message.status_changed"])

/-- C6: for every accepted status update (non-empty id, status in the
mapping) on a found message, Hub receives one message.status_changed
notification (also for duplicates); delivered_at and read_at are set only
if not already set, so an already-recorded timestamp is never overwritten;
and the stored status always becomes the mapped status, so replaying a read
receipt on a message already marked read leaves status read and read_at
unchanged. -/
theorem status_update_idempotent_timestamps (m : MessageRec) (su : WaStatusUpdate)
    (mapped : String) (now : Nat) (hid : ¬ su.id = "")
    (hmap : lookupOpt status_mapping su.status = some mapped) :
    (process_status_update (some m) su now).2 = ["message.status_changed"] ∧
      (∀ m2, (process_status_update (some m) su now).1 = some m2 →
        (∀ x, m.delivered_at = some x → m2.delivered_at = some x) ∧
          (∀ x, m.read_at = some x → m2.read_at = some x) ∧
          m2.status = mapped) := by
  have hst : ¬ su.status = "" := by
    intro he
    rw [he] at hmap
    have hnone : lookupOpt status_mapping "" = (none : Option String) := by decide
    rw [hnone] at hmap
    cases hmap
  unfold process_status_update
  rw [if_neg (not_or.mpr ⟨hid, hst⟩), hmap]
  refine ⟨rfl, ?_⟩
  intro m2 hm2
  have hm2e : applyStatusFields m mapped su.errorsMessage now = m2 :=
    Option.some.inj hm2
  rw [← hm2e]
  refine ⟨?_, ?_, ?_⟩
  · intro x hx
    unfold applyStatusFields
    dsimp only
    split
    · rename_i h1
      have h2 : m.delivered_at = none := h1.2
      rw [hx] at h2
      cases h2
    · split
      · exact hx
      · split
        · exact hx
        · exact hx
  · intro x hx
    unfold applyStatusFields
    dsimp only
    split
    · exact hx
    · split
      · rename_i h1
        have h2 : m.read_at = none := h1.2
        rw [hx] at h2
        cases h2
      · split
        · exact hx
        · exact hx
  · unfold applyStatusFields
    dsimp only
    split
    · rfl
    · split
      · rfl
      · split
        · rfl
        · rfl

theorem status_update_idempotent_timestamps_witness :
    (¬ ("wamid.1" : String) = "") ∧
      lookupOpt status_mapping "read" = some "read" ∧
      (process_status_update
          (some ⟨some 1, "outbound", "hi", "wamid.1", "read", "", some 1, some 2, some 3⟩)
          ⟨"wamid.1", "read", none⟩ 9).2 = ["message.status_changed"] :=
  ⟨by decide, by decide,
   (status_update_idempotent_timestamps
      ⟨some 1, "outbound", "hi", "wamid.1", "read", "", some 1, some 2, some 3⟩
      ⟨"wamid.1", "read", none⟩ "read" 9 (by decide) (by decide)).1⟩

/-! ## Outbound dispatch API (apps/core/api_views.py) -/

/-- The parsed outcome of the adapter call and provider-response handling of
api_views.py lines 100-118 / 226-246 (including the exception path, which
behaves as an error outcome): whether the send failed, the error text, and
the provider message id on success. -/
structure AdapterOutcome where
  hasError : Bool
  errorMsg : String
  channelMessageId : String
  deriving Repr, DecidableEq

/-- An HTTP response as far as the claims observe it: status code and error
body. -/
structure SendResponse where
  statusCode : Nat
  error : Option String
  deriving Repr, DecidableEq

/-- The channel-selection half of _get_adapter (api_views.py lines 27-31); the
adapter object itself carries no state the claims observe. -/
def get_adapter (contact : Contact) : String :=
  if contact.preferred_channel = "telegram" then "telegram" else "whatsapp"

/-- api_views.py lines 34-40 (source name with a leading underscore): for
telegram a missing (falsy) chat id yields None; for any other channel the
phone is returned unconditionally. -/
def get_recipient (contact : Contact) (channel : String) : Option String :=
  if channel = "telegram" then
    (if contact.telegram_chat_id = "" then none else some contact.telegram_chat_id)
  else some contact.phone_e164

/-- SendMessageView.post (api_views.py lines 48-150), after serializer
validation.  Contact resolution (lines 56-66) is parameterized as
resolvedContact; the adapter call and provider-response parsing are
parameterized as adapterOutcome.  Returns the response, the Message rows
created by the request (in their final persisted state), and the rate-limit
counter store after the request. -/
def send_message_post (resolvedContact : Option Contact) (rateCache : Cache)
    (t : Nat) (adapterOutcome : AdapterOutcome) (body : String) (now : Nat) :
    SendResponse × List MessageRec × Cache :=
  match resolvedContact with
  | none => (⟨404, some "Contact not found"⟩, [], rateCache)
  | some contact =>
    let chk := RateLimiter.check rateCache t contact.id
    if chk.1 = false then
      (⟨429, some ("Rate limit exceeded: " ++ chk.2)⟩, [], rateCache)
    else
      let channel := get_adapter contact
      match get_recipient contact channel with
      | none =>
        (⟨400, some ("Contact has no " ++ channel ++ " address configured")⟩,
          [], rateCache)
      | some _ =>
        if adapterOutcome.hasError then
          (⟨500, some adapterOutcome.errorMsg⟩,
            [⟨none, "outbound", body, "", "failed", adapterOutcome.errorMsg,
              none, none, none⟩],
            rateCache)
        else
          (⟨200, none⟩,
            [⟨none, "outbound", body, adapterOutcome.channelMessageId, "sent", "",
              some now, none, none⟩],
            RateLimiter.record rateCache t contact.id)

/-- StartConversationView.post (api_views.py lines 158-286), after
serializer validation, parameterized like send_message_post plus the fresh
conversation id.  The created conversation starts in state initial, status
active, with both auto_now timestamps set at creation; on adapter failure
both the message and the conversation are marked failed; on success the
message becomes sent, on_send is driven through the state machine, and the
send is recorded with the rate limiter. -/
def start_conversation_post (resolvedContact : Option Contact) (rateCache : Cache)
    (t : Nat) (adapterOutcome : AdapterOutcome) (contextType : String)
    (timeoutMinutes : Nat) (initialMessage : String) (newConversationId : Nat)
    (now : Nat) :
    SendResponse × Option Conversation × List MessageRec × Cache :=
  match resolvedContact with
  | none => (⟨404, some "Contact not found"⟩, none, [], rateCache)
  | some contact =>
    let chk := RateLimiter.check rateCache t contact.id
    if chk.1 = false then
      (⟨429, some ("Rate limit exceeded: " ++ chk.2)⟩, none, [], rateCache)
    else
      let channel := get_adapter contact
      match get_recipient contact channel with
      | none =>
        (⟨400, some ("Contact has no " ++ channel ++ " address configured")⟩,
          none, [], rateCache)
      | some _ =>
        let conversation : Conversation :=
          ⟨newConversationId, contextType, "initial", "active", now, now,
            timeoutMinutes⟩
        if adapterOutcome.hasError then
          (⟨500, some adapterOutcome.errorMsg⟩,
            some { conversation with status := "failed" },
            [⟨some newConversationId, "outbound", initialMessage, "", "failed",
              adapterOutcome.errorMsg, none, none, none⟩],
            rateCache)
        else
          (⟨201, none⟩,
            some (StateMachine.transition conversation "on_send" now).2,
            [⟨some newConversationId, "outbound", initialMessage,
              adapterOutcome.channelMessageId, "sent", "", some now, none, none⟩],
            RateLimiter.record rateCache t contact.id)

/-- C4 counterexample: a contact whose preferred channel is whatsapp but
whose phone is empty (no address configured for its preferred channel) is
not given a configuration error: the send proceeds with the empty phone as
recipient, a Message record is created, and on adapter success the request
returns 200. -/
theorem whatsapp_missing_phone_no_config_error :
    (send_message_post (some ⟨"c1", "", "12345", "whatsapp", true⟩) emptyCache 0
        ⟨false, "", "m1"⟩ "hi" 7).1.statusCode = 200 ∧
      (send_message_post (some ⟨"c1", "", "12345", "whatsapp", true⟩) emptyCache 0
          ⟨false, "", "m1"⟩ "hi" 7).2.1 =
        [⟨none, "outbound", "hi", "m1", "sent", "", some 7, none, none⟩] := by
  decide

/-- C4 as amended: the configuration-error fail-fast (HTTP 400, no Message
record, no Conversation, untouched counters) holds exactly for the telegram
side: a telegram-preferred contact with an empty chat id.  For every
non-telegram-preferred contact the dispatcher resolves the whatsapp channel
and uses the stored phone unconditionally as recipient, even when it is
empty, so no configuration error occurs. -/
theorem missing_address_config_error (contact : Contact) (rateCache : Cache)
    (t : Nat) (ao : AdapterOutcome) (body ctxType : String) (tm cid now : Nat)
    (hallow : (RateLimiter.check rateCache t contact.id).1 = true) :
    (contact.preferred_channel = "telegram" → contact.telegram_chat_id = "" →
      send_message_post (some contact) rateCache t ao body now =
          (⟨400, some "Contact has no telegram address configured"⟩, [], rateCache) ∧
        start_conversation_post (some contact) rateCache t ao ctxType tm body cid now =
          (⟨400, some "Contact has no telegram address configured"⟩, none, [],
            rateCache)) ∧
      (contact.preferred_channel ≠ "telegram" →
        get_adapter contact = "whatsapp" ∧
          get_recipient contact (get_adapter contact) = some contact.phone_e164) := by
  constructor
  · intro hpref hchat
    have hch : get_adapter contact = "telegram" := by
      rw [get_adapter, if_pos hpref]
    constructor
    · simp only [send_message_post]
      rw [hallow]
      rw [if_neg (by simp)]
      rw [hch, get_recipient, if_pos rfl, if_pos hchat]
      rfl
    · simp only [start_conversation_post]
      rw [hallow]
      rw [if_neg (by simp)]
      rw [hch, get_recipient, if_pos rfl, if_pos hchat]
      rfl
  · intro hpref
    have hch : get_adapter contact = "whatsapp" := by
      rw [get_adapter, if_neg hpref]
    refine ⟨hch, ?_⟩
    rw [hch, get_recipient, if_neg (by decide)]

theorem missing_address_config_error_witness :
    (RateLimiter.check emptyCache 0 "c2").1 = true ∧
      ("telegram" : String) = "telegram" ∧
      ("" : String) = "" ∧
      send_message_post (some ⟨"c2", "+1555", "", "telegram", true⟩) emptyCache 0
          ⟨false, "", "m1"⟩ "hi" 7 =
        (⟨400, some "Contact has no telegram address configured"⟩, [], emptyCache) :=
  ⟨by decide, rfl, rfl,
   ((missing_address_config_error ⟨"c2", "+1555", "", "telegram", true⟩ emptyCache 0
       ⟨false, "", "m1"⟩ "hi" "clarification" 60 1 7 (by decide)).1 rfl rfl).1⟩

/-- C10: no processing path reads the contact's is_active flag.  Two runs of
the same inbound webhook event, or of the same outbound send or
start-conversation request, on states differing only in the contact's
is_active value produce identical Message records, state-machine events,
Hub notifications, conversation updates, responses, and counter stores; in
particular an inactive contact's non-opt-out reply with a live conversation
still persists a Message, still drives on_reply, and still notifies Hub,
and an opt-out sets is_active to false whatever it was before. -/
theorem processing_ignores_is_active (m : WaMessage) (c : Contact)
    (conv : Option Conversation) (now : Nat) (a1 a2 : Bool) (rateCache : Cache)
    (t : Nat) (ao : AdapterOutcome) (body ctxType : String) (tm cid : Nat) :
    ((process_inbound_message m (some { c with is_active := a1 }) conv now).messages =
        (process_inbound_message m (some { c with is_active := a2 }) conv now).messages) ∧
      ((process_inbound_message m (some { c with is_active := a1 }) conv now).events =
        (process_inbound_message m (some { c with is_active := a2 }) conv now).events) ∧
      ((process_inbound_message m (some { c with is_active := a1 }) conv now).notifications =
        (process_inbound_message m (some { c with is_active := a2 }) conv now).notifications) ∧
      ((process_inbound_message m (some { c with is_active := a1 }) conv now).conversationAfter =
        (process_inbound_message m (some { c with is_active := a2 }) conv now).conversationAfter) ∧
      (isOptOut (extractBody m) = true →
        (process_inbound_message m (some { c with is_active := a1 }) conv now).contactAfter =
          some { c with is_active := false }) ∧
      (isOptOut (extractBody m) = false → ∀ cv, conv = some cv →
        (process_inbound_message m (some { c with is_active := a1 }) conv now).messages.length = 1 ∧
          (process_inbound_message m (some { c with is_active := a1 }) conv now).events =
            ["on_reply"] ∧
          (process_inbound_message m (some { c with is_active := a1 }) conv now).notifications =
            ["client.replied"]) ∧
      (send_message_post (some { c with is_active := a1 }) rateCache t ao body now =
        send_message_post (some { c with is_active := a2 }) rateCache t ao body now) ∧
      (start_conversation_post (some { c with is_active := a1 }) rateCache t ao
          ctxType tm body cid now =
        start_conversation_post (some { c with is_active := a2 }) rateCache t ao
          ctxType tm body cid now) := by
  refine ⟨?_, ?_, ?_, ?_, ?_, ?_, rfl, rfl⟩
  · cases h : isOptOut (extractBody m) <;> cases conv <;>
      simp [process_inbound_message, h]
  · cases h : isOptOut (extractBody m) <;> cases conv <;>
      simp [process_inbound_message, h]
  · cases h : isOptOut (extractBody m) <;> cases conv <;>
      simp [process_inbound_message, h]
  · cases h : isOptOut (extractBody m) <;> cases conv <;>
      simp [process_inbound_message, h]
  · intro h
    cases conv <;> simp [process_inbound_message, h]
  · intro h cv hconv
    rw [hconv]
    simp [process_inbound_message, h]

theorem processing_ignores_is_active_witness :
    isOptOut (extractBody ⟨"15551234", "wamid.B", "text", "STOP", "", "", ""⟩) = true ∧
      (process_inbound_message ⟨"15551234", "wamid.B", "text", "STOP", "", "", ""⟩
          (some ⟨"c3", "+1555", "", "whatsapp", true⟩) none 4).contactAfter =
        some ⟨"c3", "+1555", "", "whatsapp", false⟩ :=
  ⟨by decide,
   (processing_ignores_is_active ⟨"15551234", "wamid.B", "text", "STOP", "", "", ""⟩
      ⟨"c3", "+1555", "", "whatsapp", false⟩ none 4 true false emptyCache 0
      ⟨false, "", "m1"⟩ "hi" "clarification" 60 1).2.2.2.2.1 (by decide)⟩

/-! ## Timeout sweep (apps/core/tasks.py lines 19-54) -/

/-- check_conversation_timeouts: scans the conversations, processes those
with status waiting_reply whose last_activity_at + timeout_minutes has
elapsed (the queryset filter last_activity_at at or before now minus
timeout_minutes, stated additively; times in minutes), drives on_timeout
through the state machine for each, emits one conversation.timed_out Hub
notification per conversation whose transition returned a (truthy) new
state, and counts those.  Returns the conversations as left in the
datastore, the Hub notifications emitted in order, and the count. -/
def check_conversation_timeouts : List Conversation → Nat →
    List Conversation × List String × Nat
  | [], _ => ([], [], 0)
  | c :: rest, t =>
    let tail := check_conversation_timeouts rest t
    if c.status = "waiting_reply" ∧ c.lastActivityAt + c.timeoutMinutes ≤ t then
      match StateMachine.transition c "on_timeout" t with
      | (some s, c2) =>
        if s = "" then (c2 :: tail.1, tail.2.1, tail.2.2)
        else (c2 :: tail.1, "conversation.timed_out" :: tail.2.1, tail.2.2 + 1)
      | (none, c2) => (c2 :: tail.1, tail.2.1, tail.2.2)
    else (c :: tail.1, tail.2.1, tail.2.2)

/-- C8: the sweep's count equals the number of conversation.timed_out
notifications emitted; the conversations afterwards are exactly the input
with the state machine's on_timeout applied to the eligible ones (status
waiting_reply, deadline elapsed) and everything else untouched; and a
clarification-flow conversation in state awaiting_response, status
waiting_reply, whose deadline has elapsed, ends in state timed_out, status
timed_out, with exactly one conversation.timed_out notification and count
1. -/
theorem timeout_sweep_spec (convs : List Conversation) (t : Nat) :
    ((check_conversation_timeouts convs t).2.2 =
        (check_conversation_timeouts convs t).2.1.length) ∧
      ((check_conversation_timeouts convs t).1 =
        convs.map (fun c =>
          if c.status = "waiting_reply" ∧ c.lastActivityAt + c.timeoutMinutes ≤ t then
            (StateMachine.transition c "on_timeout" t).2
          else c)) ∧
      (∀ c : Conversation, c.contextType = "clarification" →
        c.currentState = "awaiting_response" → c.status = "waiting_reply" →
        c.lastActivityAt + c.timeoutMinutes ≤ t →
        check_conversation_timeouts [c] t =
          ([{ c with currentState := "timed_out", status := "timed_out", updatedAt := t }],
            ["conversation.timed_out"], 1)) := by
  refine ⟨?_, ?_, ?_⟩
  · induction convs with
    | nil => rfl
    | cons c rest ih =>
      unfold check_conversation_timeouts
      dsimp only
      split
      · split
        · split
          · exact ih
          · rw [List.length_cons, ih]
        · exact ih
      · exact ih
  · induction convs with
    | nil => rfl
    | cons c rest ih =>
      unfold check_conversation_timeouts
      dsimp only [List.map_cons]
      split
      · split
        · rename_i s c2 heq
          rw [heq]
          split
          · exact congrArg (fun l => c2 :: l) ih
          · exact congrArg (fun l => c2 :: l) ih
        · rename_i c2 heq
          rw [heq]
          exact congrArg (fun l => c2 :: l) ih
      · exact congrArg (fun l => c :: l) ih
  · intro c h1 h2 h3 h4
    have ht : StateMachine.transition c "on_timeout" t =
        (some "timed_out",
          { c with currentState := "timed_out", status := "timed_out", updatedAt := t }) := by
      unfold StateMachine.transition
      rw [h1, h2]
      rfl
    unfold check_conversation_timeouts
    dsimp only
    rw [if_pos ⟨h3, h4⟩, ht]
    rfl

theorem timeout_sweep_spec_witness :
    (("clarification" : String) = "clarification") ∧
      ((0 : Nat) + 60 ≤ 60) ∧
      check_conversation_timeouts
          [⟨1, "clarification", "awaiting_response", "waiting_reply", 0, 0, 60⟩] 60 =
        ([⟨1, "clarification", "timed_out", "timed_out", 0, 60, 60⟩],
          ["conversation.timed_out"], 1) :=
  ⟨rfl, by omega,
   (timeout_sweep_spec
      [⟨1, "clarification", "awaiting_response", "waiting_reply", 0, 0, 60⟩] 60).2.2
     ⟨1, "clarification", "awaiting_response", "waiting_reply", 0, 0, 60⟩
     rfl rfl rfl (by decide)⟩
